import Mathlib

/-!
Shallow embedding of the site-cloning pipeline implemented by the `WebCloner`
class in `webCloner.py`.  External effects (HTTP responses, DOM evaluations,
the scroll-height measurements of the live page) are passed in explicitly as
values, and each Python method becomes a pure Lean function over them; the
orchestration of `clone()` becomes a total function from the success/failure
of each external call to the ordered list of completed pipeline events.
-/

namespace WebCloner

/-- Outcome of one HTTP request as observed by `WebCloner.download_file`
(`webCloner.py` lines 41-53): either a response carrying a status code and a
body, or a transport exception raised before any file is opened (timeout,
connection error, DNS failure, ...). -/
inductive HttpResult where
  | response (status : Nat) (body : String)
  | exn (err : String)
deriving DecidableEq, Repr

/-- Observable behaviour of one `download_file` call: `success` is the
truthiness of the Python return value (`True` on the 200 branch, `None` when
the status test fails, `False` from the exception handler); `fileWritten` is
the path actually written, when any; `logged` is the URL carried by the
warning line printed from the exception handler, when any. -/
structure DownloadResult where
  success : Bool
  fileWritten : Option String
  logged : Option String
deriving DecidableEq, Repr

/-- `WebCloner.download_file(url, filepath)` (lines 41-53): on status 200 the
body is written to `filepath` and `True` is returned; on any other status the
function falls through, writing nothing, logging nothing, and returning
`None`; a raised exception is caught, logged with the offending URL, and
turned into `False`. -/
def download_file (url filepath : String) (net : HttpResult) : DownloadResult :=
  match net with
  | .response status _body =>
    if status = 200 then
      { success := true, fileWritten := some filepath, logged := none }
    else
      { success := false, fileWritten := none, logged := none }
  | .exn _err => { success := false, fileWritten := none, logged := some url }

/-- Whether an `HttpResult` passes the `response.status == 200` test of
`download_file`. -/
def fetch200 : HttpResult → Bool
  | .response status _ => status == 200
  | .exn _ => false

/-- The per-category URL lists held in `self.assets` (lines 18-24): keys
`css`, `js`, `images`, `fonts`, `svgs`.  The same structure also carries the
raw per-category lists returned by the `page.evaluate` calls of
`extract_assets_from_page` before deduplication. -/
structure Assets where
  css : List String
  js : List String
  images : List String
  fonts : List String
  svgs : List String
deriving DecidableEq, Repr

/-- Lines 59-125 of `extract_assets_from_page`: the five `page.evaluate`
results are appended to `self.assets`; font URLs that do not start with
`http` are made absolute with `urljoin(self.url, ...)`, modelled by the
`resolve` argument. -/
def collect_raw (page : Assets) (resolve : String → String) : Assets :=
  { css := page.css
    js := page.js
    images := page.images
    fonts := page.fonts.map fun u => if u.startsWith "http" then u else resolve u
    svgs := page.svgs }

/-- Lines 127-129: `self.assets[key] = list(set(self.assets[key]))` for every
category. -/
def dedupAssets (a : Assets) : Assets :=
  { css := a.css.dedup
    js := a.js.dedup
    images := a.images.dedup
    fonts := a.fonts.dedup
    svgs := a.svgs.dedup }

/-- `WebCloner.extract_assets_from_page` (lines 55-135): collect the raw
per-category URL lists from the rendered page, then deduplicate each
category. -/
def extract_assets_from_page (page : Assets) (resolve : String → String) : Assets :=
  dedupAssets (collect_raw page resolve)

/-- Split a character list at the first character belonging to `stops`,
returning the part before it and the remainder (the stop character kept in
front of the remainder). -/
def splitAtStop (stops : List Char) : List Char → List Char × List Char
  | [] => ([], [])
  | c :: cs =>
    if c ∈ stops then ([], c :: cs)
    else
      let p := splitAtStop stops cs
      (c :: p.1, p.2)

/-- Whether a character may appear in a URL scheme after its first letter
(`urllib.parse`: letters, digits, `+`, `-`, `.`). -/
def schemeChar (c : Char) : Bool :=
  c.isAlphanum || c = '+' || c = '-' || c = '.'

/-- Whether a character list is a valid URL scheme: nonempty, starting with a
letter, with every following character a `schemeChar`. -/
def validScheme : List Char → Bool
  | [] => false
  | c :: cs => c.isAlpha && cs.all schemeChar

/-- The schemes for which `urlparse` splits the legacy `;params` component
off the last path segment (`urllib.parse.uses_params`; the empty string
covers scheme-less URLs). -/
def uses_params : List String :=
  ["", "ftp", "hdl", "prospero", "http", "imap", "https", "shttp", "rtsp",
    "rtspu", "sip", "sips", "mms", "sftp", "tel"]

/-- Truncate a character list at its first `;`, dropping the `;` and
everything after it; a list without `;` is unchanged. -/
def truncAtSemi : List Char → List Char
  | [] => []
  | c :: cs => if c = ';' then [] else c :: truncAtSemi cs

/-- Split a character list around its last `/`: the first component is
everything up to and including the last `/` (empty when there is no `/`), the
second is the remainder after it. -/
def afterLastSlash : List Char → List Char × List Char
  | [] => ([], [])
  | c :: cs =>
    if '/' ∈ cs then
      let p := afterLastSlash cs
      (c :: p.1, p.2)
    else if c = '/' then ([c], cs)
    else ([], c :: cs)

/-- `urllib.parse._splitparams` applied to a path, keeping only the path
part: the `;params` component is dropped from the last `/`-separated segment
(the first `;` at or after the last `/`; the first `;` overall when the path
has no `/`); a last segment without `;` leaves the path unchanged. -/
def splitparams (cs : List Char) : List Char :=
  let p := afterLastSlash cs
  p.1 ++ truncAtSemi p.2

/-- The `path` component produced by `urllib.parse.urlparse`: the scheme (the
characters before the first `:`, when they form a valid scheme) is split off
and lowercased, a leading `//netloc` is consumed up to the next `/`, `?` or
`#`, the path stops at the first `?` or `#`, and — for the `uses_params`
schemes, scheme-less URLs included — the `;params` component of the last path
segment is split off. -/
def urlparse_path (url : String) : String :=
  let cs := url.toList
  let parsed :=
    match splitAtStop [':'] cs with
    | (sch, ':' :: rest) =>
      if validScheme sch then (String.mk (sch.map Char.toLower), rest) else ("", cs)
    | _ => ("", cs)
  let afterNetloc :=
    match parsed.2 with
    | '/' :: '/' :: rest => (splitAtStop ['/', '?', '#'] rest).2
    | other => other
  let path := (splitAtStop ['?', '#'] afterNetloc).1
  if uses_params.contains parsed.1 then String.mk (splitparams path)
  else String.mk path

/-- Split a character list into its `/`-separated components. -/
def splitComponents : List Char → List (List Char)
  | [] => [[]]
  | c :: cs =>
    match splitComponents cs with
    | comps =>
      if c = '/' then [] :: comps
      else
        match comps with
        | [] => [[c]]
        | h :: t => (c :: h) :: t

/-- `pathlib.PurePath(p).name`: the final component of the path, with empty
and `.` components dropped (as `PurePath` parsing drops them). -/
def path_name (p : String) : String :=
  String.mk
    (((splitComponents p.toList).filter fun s => !s.isEmpty && s != ['.']).getLast?.getD [])

/-- Index of the last `.` in a character list (`str.rfind('.')`), when one
exists. -/
def rfindDot : List Char → Option Nat
  | [] => none
  | c :: cs =>
    match rfindDot cs with
    | some i => some (i + 1)
    | none => if c = '.' then some 0 else none

/-- `pathlib.PurePath(p).suffix`: the final component from its last dot on,
provided that dot is neither the first nor the last character of the
component; otherwise the empty string. -/
def path_suffix (p : String) : String :=
  let name := (path_name p).toList
  match rfindDot name with
  | some i => if 0 < i ∧ i < name.length - 1 then String.mk (name.drop i) else ""
  | none => ""

/-- Line 143: `f"style_{i}.css"`. -/
def cssFilename (i : Nat) : String := "style_" ++ toString i ++ ".css"

/-- Line 150: `f"script_{i}.js"`. -/
def jsFilename (i : Nat) : String := "script_" ++ toString i ++ ".js"

/-- Line 165: `f"svg_{i}.svg"`. -/
def svgFilename (i : Nat) : String := "svg_" ++ toString i ++ ".svg"

/-- Line 157: `ext = Path(urlparse(img_url).path).suffix or '.jpg'` (the empty
suffix is falsy, so it falls back to `.jpg`). -/
def imageExt (url : String) : String :=
  let e := path_suffix (urlparse_path url)
  if e = "" then ".jpg" else e

/-- Line 158: `f"image_{i}{ext}"`. -/
def imageFilename (i : Nat) (url : String) : String :=
  "image_" ++ toString i ++ imageExt url

/-- Line 172: `ext = Path(urlparse(font_url).path).suffix or '.woff2'`. -/
def fontExt (url : String) : String :=
  let e := path_suffix (urlparse_path url)
  if e = "" then ".woff2" else e

/-- Line 173: `f"font_{i}{ext}"`. -/
def fontFilename (i : Nat) (url : String) : String :=
  "font_" ++ toString i ++ fontExt url

/-- One `for i, url in enumerate(...)` download loop of `download_assets`
(lines 137-176), started at index `i`: each URL is fetched with
`download_file` at `dir + "/" + name i url`, and the `(filepath, url)` pairs
of the files actually written are collected in order. -/
def downloadLoop (dir : String) (name : Nat → String → String)
    (net : String → HttpResult) : Nat → List String → List (String × String)
  | _, [] => []
  | i, u :: us =>
    match (download_file u (dir ++ "/" ++ name i u) (net u)).fileWritten with
    | some fp => (fp, u) :: downloadLoop dir name net (i + 1) us
    | none => downloadLoop dir name net (i + 1) us

/-- `WebCloner.download_assets` (lines 137-176): the five per-category
download loops, in source order (css, js, images, svgs, fonts), each
enumerating its deduplicated URL list from index 0. -/
def download_assets (outputDir : String) (a : Assets) (net : String → HttpResult) :
    List (String × String) :=
  downloadLoop (outputDir ++ "/css") (fun i _ => cssFilename i) net 0 a.css ++
    downloadLoop (outputDir ++ "/js") (fun i _ => jsFilename i) net 0 a.js ++
    downloadLoop (outputDir ++ "/images") imageFilename net 0 a.images ++
    downloadLoop (outputDir ++ "/svgs") (fun i _ => svgFilename i) net 0 a.svgs ++
    downloadLoop (outputDir ++ "/fonts") fontFilename net 0 a.fonts

/-- The JSON object written by `WebCloner.save_metadata` to `metadata.json`
(lines 258-275). -/
structure Manifest where
  url : String
  domain : String
  css_count : Nat
  js_count : Nat
  images_count : Nat
  fonts_count : Nat
  svgs_count : Nat
  asset_urls : Assets
deriving DecidableEq, Repr

/-- `WebCloner.save_metadata` (lines 258-275): every count is the length of
the corresponding `self.assets` list, and `asset_urls` is `self.assets`
itself. -/
def save_metadata (url domain : String) (a : Assets) : Manifest :=
  { url := url
    domain := domain
    css_count := a.css.length
    js_count := a.js.length
    images_count := a.images.length
    fonts_count := a.fonts.length
    svgs_count := a.svgs.length
    asset_urls := a }

/-- The data path of a run from discovery on (lines 334-345 of `clone`): the
registry is populated once by `extract_assets_from_page`, drained by the
download loops, and the manifest is written from the registry alone. -/
def captureOutputs (url domain outputDir : String) (page : Assets)
    (resolve : String → String) (net : String → HttpResult) :
    List (String × String) × Manifest :=
  let registry := extract_assets_from_page page resolve
  (download_assets outputDir registry net, save_metadata url domain registry)

/-- Loop state of `scroll_page_fully` (lines 186-209): `pos` is
`current_position`, `height` the last-measured `total_height`, `k` the index
of the next height measurement, `iters` the number of loop iterations
performed so far, and `trace` the arguments of the `window.scrollTo(0, ...)`
calls made so far. -/
structure ScrollState where
  pos : Nat
  height : Nat
  k : Nat
  iters : Nat
  trace : List Nat
deriving DecidableEq, Repr

/-- The `while current_position < total_height` loop of `scroll_page_fully`
(lines 198-204).  `heights j` is the value `document.body.scrollHeight`
reports at its `j`-th measurement (measurement 0 is the read before the loop,
line 191); `step` is `viewport_height`.  Every iteration scrolls to `pos`,
advances `pos` by `step`, and re-reads the height as the next measurement —
the height is never cached across iterations.  `fuel` bounds the number of
iterations so the model is total; `none` means the loop has not terminated
within `fuel` iterations. -/
def scrollLoop (heights : Nat → Nat) (step : Nat) :
    Nat → ScrollState → Option ScrollState
  | 0, _ => none
  | fuel + 1, s =>
    if s.pos < s.height then
      scrollLoop heights step fuel
        { pos := s.pos + step
          height := heights s.k
          k := s.k + 1
          iters := s.iters + 1
          trace := s.trace ++ [s.pos] }
    else some s

/-- `WebCloner.scroll_page_fully` (lines 186-209): run the scroll loop from
position 0 with the initial height measurement, then issue the final
`window.scrollTo(0, 0)` (line 207).  Returns the final loop state and the
full trace of scroll targets. -/
def scroll_page_fully (heights : Nat → Nat) (step fuel : Nat) :
    Option (ScrollState × List Nat) :=
  match scrollLoop heights step fuel
      { pos := 0, height := heights 0, k := 1, iters := 0, trace := [] } with
  | some s => some (s, s.trace ++ [0])
  | none => none

/-- Observable pipeline events of one `WebCloner.clone()` run
(lines 277-355), in the order the corresponding source calls complete. -/
inductive Event where
  | createDirs
  | navigate
  | dismissOverlays
  | discoverAssets
  | downloadAssets
  | saveHtml
  | scrollPage
  | awaitMedia
  | screenshots
  | saveMetadata
  | closeBrowser
  | reportError
deriving DecidableEq, Repr

/-- Result of one `clone()` call: the completed pipeline events in order, and
whether an exception escaped to the caller. -/
structure CloneRun where
  events : List Event
  raised : Bool
deriving DecidableEq, Repr

/-- Control flow of `WebCloner.clone` (lines 277-355).  Each flag tells
whether the corresponding external call returns normally (`false`: it
raises): `setupOk` is `setup_directories` (line 282, before the `try`, so its
exception propagates); `launchOk` covers browser launch, context and page
creation (289-294); `navOk` covers `page.goto` and the load-state waits
(297-302); `discoverOk` the DOM evaluations of `extract_assets_from_page`
(335); `htmlOk` is `save_html` (339); `scrollOk`, `mediaOk` and `shotOk`
are the three phases of `take_screenshots` (342): `scroll_page_fully`,
`wait_for_images_and_fonts`, and the two `page.screenshot` calls; `metaOk`
is `save_metadata` (345).  `download_assets` (336) and the cookie dismissal
(308-327) swallow their own errors and never raise, so they carry no flag.
The `except` handler (352-355) prints the error and the traceback
(`reportError`) and returns normally; `browser.close()` (350) runs only at
the end of the fully successful `try` body. -/
def clone (setupOk launchOk navOk discoverOk htmlOk scrollOk mediaOk shotOk metaOk : Bool) :
    CloneRun :=
  if !setupOk then { events := [], raised := true }
  else if !launchOk then { events := [.createDirs, .reportError], raised := false }
  else if !navOk then { events := [.createDirs, .reportError], raised := false }
  else if !discoverOk then
    { events := [.createDirs, .navigate, .dismissOverlays, .reportError], raised := false }
  else if !htmlOk then
    { events := [.createDirs, .navigate, .dismissOverlays, .discoverAssets, .downloadAssets,
        .reportError],
      raised := false }
  else if !scrollOk then
    { events := [.createDirs, .navigate, .dismissOverlays, .discoverAssets, .downloadAssets,
        .saveHtml, .reportError],
      raised := false }
  else if !mediaOk then
    { events := [.createDirs, .navigate, .dismissOverlays, .discoverAssets, .downloadAssets,
        .saveHtml, .scrollPage, .reportError],
      raised := false }
  else if !shotOk then
    { events := [.createDirs, .navigate, .dismissOverlays, .discoverAssets, .downloadAssets,
        .saveHtml, .scrollPage, .awaitMedia, .reportError],
      raised := false }
  else if !metaOk then
    { events := [.createDirs, .navigate, .dismissOverlays, .discoverAssets, .downloadAssets,
        .saveHtml, .scrollPage, .awaitMedia, .screenshots, .reportError],
      raised := false }
  else
    { events := [.createDirs, .navigate, .dismissOverlays, .discoverAssets, .downloadAssets,
        .saveHtml, .scrollPage, .awaitMedia, .screenshots, .saveMetadata, .closeBrowser],
      raised := false }

/-- The pipeline events that write files into the output tree:
`download_assets` (asset files), `save_html` (`index.html`),
`take_screenshots` (the two PNGs), `save_metadata` (`metadata.json`).
`createDirs` only creates empty directories. -/
def writesFiles : Event → Bool
  | .downloadAssets => true
  | .saveHtml => true
  | .screenshots => true
  | .saveMetadata => true
  | _ => false

/-- `x` occurs before `y` in `l` whenever both occur. -/
def beforeIn (l : List Event) (x y : Event) : Prop :=
  x ∈ l → y ∈ l → l.indexOf x < l.indexOf y

instance (l : List Event) (x y : Event) : Decidable (beforeIn l x y) := by
  unfold beforeIn
  exact inferInstance

/-! ### Helper lemmas -/

theorem dedup_spec (l : List String) :
    l.dedup.Nodup ∧ l.dedup.length ≤ l.length ∧ (l.dedup.length = l.length ↔ l.Nodup) := by
  refine ⟨l.nodup_dedup, l.dedup_sublist.length_le, ?_, ?_⟩
  · intro h
    have he : l.dedup = l := l.dedup_sublist.eq_of_length h
    rw [← he]
    exact l.nodup_dedup
  · intro h
    rw [List.dedup_eq_self.mpr h]

theorem download_file_fileWritten (url fp : String) (net : HttpResult) :
    (download_file url fp net).fileWritten = if fetch200 net then some fp else none := by
  cases net with
  | response s b =>
    by_cases h : s = 200 <;> simp [download_file, fetch200, h]
  | exn e => simp [download_file, fetch200]

theorem downloadLoop_filter_not_mem (dir : String) (name : Nat → String → String)
    (net : String → HttpResult) (u : String) :
    ∀ (us : List String) (i : Nat), u ∉ us →
      (downloadLoop dir name net i us).filter (fun p => p.2 == u) = [] := by
  intro us
  induction us with
  | nil => intro i _; simp [downloadLoop]
  | cons v vs ih =>
    intro i hu
    have hv : ¬ v = u := fun h => hu (h ▸ List.mem_cons_self v vs)
    have hvs : u ∉ vs := fun h => hu (List.mem_cons_of_mem _ h)
    rw [downloadLoop]
    cases hfw : (download_file v (dir ++ "/" ++ name i v) (net v)).fileWritten with
    | none => exact ih (i + 1) hvs
    | some fp => simp [List.filter_cons, hv, ih (i + 1) hvs]

theorem downloadLoop_filter_get (dir : String) (name : Nat → String → String)
    (net : String → HttpResult) (u : String) :
    ∀ (us : List String) (j i : Nat), us.Nodup → us.get? j = some u →
      (downloadLoop dir name net i us).filter (fun p => p.2 == u) =
        if fetch200 (net u) then [(dir ++ "/" ++ name (i + j) u, u)] else [] := by
  intro us
  induction us with
  | nil => intro j i _ h; simp at h
  | cons v vs ih =>
    intro j i hnd hget
    rcases List.nodup_cons.mp hnd with ⟨hvm, hndvs⟩
    cases j with
    | zero =>
      have hvu : v = u := by simpa using hget
      subst hvu
      rw [downloadLoop, download_file_fileWritten]
      by_cases h200 : fetch200 (net v)
      · rw [if_pos h200]
        simp [List.filter_cons, downloadLoop_filter_not_mem dir name net v vs (i + 1) hvm, h200]
      · rw [if_neg h200]
        simp [downloadLoop_filter_not_mem dir name net v vs (i + 1) hvm, h200]
    | succ j2 =>
      have hget2 : vs.get? j2 = some u := by simpa using hget
      have humem : u ∈ vs := List.get?_mem hget2
      have hvu : ¬ v = u := fun h => hvm (h ▸ humem)
      have harith : i + 1 + j2 = i + (j2 + 1) := by omega
      rw [downloadLoop, download_file_fileWritten]
      by_cases h200 : fetch200 (net v)
      · rw [if_pos h200]
        simp only [List.filter_cons]
        simp [hvu, ih j2 (i + 1) hndvs hget2, harith]
      · rw [if_neg h200]
        rw [ih j2 (i + 1) hndvs hget2, harith]

theorem downloadCategory_unique (dir : String) (name : Nat → String → String)
    (net : String → HttpResult) (l : List String) (hnd : l.Nodup) (i : Nat) (u : String)
    (hget : l.get? i = some u) (h200 : fetch200 (net u) = true) :
    (downloadLoop dir name net 0 l).filter (fun p => p.2 == u) = [(dir ++ "/" ++ name i u, u)] := by
  rw [downloadLoop_filter_get dir name net u l i 0 hnd hget]
  simp [h200]

/-! ### Claims -/

/-- Claim C7 (confirmed): after the discovery phase completes, every category
of the Registry is duplicate-free; its cardinality is at most the raw
discovered count for that category, with equality exactly when the raw list
has no repeats. -/
theorem c7_registry_dedup (page : Assets) (resolve : String → String) :
    ((extract_assets_from_page page resolve).css.Nodup ∧
      (extract_assets_from_page page resolve).css.length ≤ (collect_raw page resolve).css.length ∧
      ((extract_assets_from_page page resolve).css.length = (collect_raw page resolve).css.length ↔
        (collect_raw page resolve).css.Nodup)) ∧
    ((extract_assets_from_page page resolve).js.Nodup ∧
      (extract_assets_from_page page resolve).js.length ≤ (collect_raw page resolve).js.length ∧
      ((extract_assets_from_page page resolve).js.length = (collect_raw page resolve).js.length ↔
        (collect_raw page resolve).js.Nodup)) ∧
    ((extract_assets_from_page page resolve).images.Nodup ∧
      (extract_assets_from_page page resolve).images.length ≤
        (collect_raw page resolve).images.length ∧
      ((extract_assets_from_page page resolve).images.length =
          (collect_raw page resolve).images.length ↔
        (collect_raw page resolve).images.Nodup)) ∧
    ((extract_assets_from_page page resolve).fonts.Nodup ∧
      (extract_assets_from_page page resolve).fonts.length ≤
        (collect_raw page resolve).fonts.length ∧
      ((extract_assets_from_page page resolve).fonts.length =
          (collect_raw page resolve).fonts.length ↔
        (collect_raw page resolve).fonts.Nodup)) ∧
    ((extract_assets_from_page page resolve).svgs.Nodup ∧
      (extract_assets_from_page page resolve).svgs.length ≤ (collect_raw page resolve).svgs.length ∧
      ((extract_assets_from_page page resolve).svgs.length = (collect_raw page resolve).svgs.length ↔
        (collect_raw page resolve).svgs.Nodup)) := by
  simp only [extract_assets_from_page, dedupAssets]
  exact ⟨dedup_spec _, dedup_spec _, dedup_spec _, dedup_spec _, dedup_spec _⟩

/-- Claim C5 (confirmed): in every run that reaches the manifest-writing
stage, each per-category count of the manifest equals the cardinality of that
category's deduplicated Registry set, the per-category URL lists are exactly
the deduplicated discovered URLs, and the manifest does not depend on the
download outcomes at all. -/
theorem c5_manifest_counts (url domain outputDir : String) (page : Assets)
    (resolve : String → String) (net : String → HttpResult) :
    ((captureOutputs url domain outputDir page resolve net).2.css_count =
        (collect_raw page resolve).css.toFinset.card ∧
      (captureOutputs url domain outputDir page resolve net).2.js_count =
        (collect_raw page resolve).js.toFinset.card ∧
      (captureOutputs url domain outputDir page resolve net).2.images_count =
        (collect_raw page resolve).images.toFinset.card ∧
      (captureOutputs url domain outputDir page resolve net).2.fonts_count =
        (collect_raw page resolve).fonts.toFinset.card ∧
      (captureOutputs url domain outputDir page resolve net).2.svgs_count =
        (collect_raw page resolve).svgs.toFinset.card) ∧
    (captureOutputs url domain outputDir page resolve net).2.asset_urls =
      extract_assets_from_page page resolve ∧
    (∀ net2 : String → HttpResult,
      (captureOutputs url domain outputDir page resolve net2).2 =
        (captureOutputs url domain outputDir page resolve net).2) := by
  refine ⟨⟨?_, ?_, ?_, ?_, ?_⟩, rfl, fun _ => rfl⟩ <;>
    simp [captureOutputs, save_metadata, extract_assets_from_page, dedupAssets,
      List.card_toFinset]

/-- Claim C3 counterexample: a 404 response makes `download_file` fail and
write nothing, but — contrary to the claim — nothing is logged: the non-200
branch falls through silently, so the failure carries no reported URL. -/
theorem c3_counterexample :
    (download_file "http://h/a.png" "out/images/image_0.png"
        (HttpResult.response 404 "")).success = false ∧
      (download_file "http://h/a.png" "out/images/image_0.png"
          (HttpResult.response 404 "")).logged = none ∧
      (download_file "http://h/a.png" "out/images/image_0.png"
          (HttpResult.response 404 "")).fileWritten = none := by
  decide

/-- Claim C3 (corrected): the fetch succeeds and writes the file iff the
response status is 200; a timeout, connection error or transport exception is
logged with the offending URL and never raised; a non-200 status, however,
fails *silently* — no log line is produced — and every failure leaves no file
at the target path. -/
theorem c3_fetch_success_iff_200 (url fp : String) (net : HttpResult) :
    ((download_file url fp net).success = true ↔ ∃ b, net = HttpResult.response 200 b) ∧
      ((download_file url fp net).fileWritten = some fp ↔
        ∃ b, net = HttpResult.response 200 b) ∧
      ((∃ b, net = HttpResult.response 200 b) ∨ (download_file url fp net).fileWritten = none) ∧
      (∀ e2, net = HttpResult.exn e2 → (download_file url fp net).logged = some url) ∧
      (∀ st b, net = HttpResult.response st b → (download_file url fp net).logged = none) := by
  cases net with
  | response st b =>
    by_cases h : st = 200
    · subst h
      simp [download_file]
    · simp [download_file, h]
  | exn e2 => simp [download_file]

/-- Witness for C3: a timeout exception at a concrete URL is logged with that
URL. -/
theorem c3_fetch_witness :
    (download_file "http://h/f.woff" "out/fonts/font_0.woff"
        (HttpResult.exn "timeout")).logged = some "http://h/f.woff" :=
  (c3_fetch_success_iff_200 "http://h/f.woff" "out/fonts/font_0.woff"
      (HttpResult.exn "timeout")).2.2.2.1 "timeout" rfl

/-- Claim C6 (confirmed): for every asset whose fetch succeeds, the download
loop of its category produces exactly one output file for it, at the name
determined by its zero-based enumeration index and the extension rule:
`style_{i}.css`, `script_{i}.js`, `svg_{i}.svg`, and `image_{i}{ext}` /
`font_{i}{ext}` with the extension taken from the source URL's path suffix
when present, else `.jpg` / `.woff2`. -/
theorem c6_output_filenames (outputDir : String) (page : Assets)
    (resolve : String → String) (net : String → HttpResult) :
    (∀ i u, (extract_assets_from_page page resolve).css.get? i = some u →
        fetch200 (net u) = true →
        (downloadLoop (outputDir ++ "/css") (fun i2 _ => cssFilename i2) net 0
            (extract_assets_from_page page resolve).css).filter (fun p => p.2 == u) =
          [(outputDir ++ "/css" ++ "/" ++ cssFilename i, u)]) ∧
    (∀ i u, (extract_assets_from_page page resolve).js.get? i = some u →
        fetch200 (net u) = true →
        (downloadLoop (outputDir ++ "/js") (fun i2 _ => jsFilename i2) net 0
            (extract_assets_from_page page resolve).js).filter (fun p => p.2 == u) =
          [(outputDir ++ "/js" ++ "/" ++ jsFilename i, u)]) ∧
    (∀ i u, (extract_assets_from_page page resolve).images.get? i = some u →
        fetch200 (net u) = true →
        (downloadLoop (outputDir ++ "/images") imageFilename net 0
            (extract_assets_from_page page resolve).images).filter (fun p => p.2 == u) =
          [(outputDir ++ "/images" ++ "/" ++ imageFilename i u, u)]) ∧
    (∀ i u, (extract_assets_from_page page resolve).svgs.get? i = some u →
        fetch200 (net u) = true →
        (downloadLoop (outputDir ++ "/svgs") (fun i2 _ => svgFilename i2) net 0
            (extract_assets_from_page page resolve).svgs).filter (fun p => p.2 == u) =
          [(outputDir ++ "/svgs" ++ "/" ++ svgFilename i, u)]) ∧
    (∀ i u, (extract_assets_from_page page resolve).fonts.get? i = some u →
        fetch200 (net u) = true →
        (downloadLoop (outputDir ++ "/fonts") fontFilename net 0
            (extract_assets_from_page page resolve).fonts).filter (fun p => p.2 == u) =
          [(outputDir ++ "/fonts" ++ "/" ++ fontFilename i u, u)]) := by
  have hnd : ∀ l : List String, l.dedup.Nodup := fun l => l.nodup_dedup
  refine ⟨?_, ?_, ?_, ?_, ?_⟩ <;> intro i u hget h200 <;>
    exact downloadCategory_unique _ _ net _ (hnd _) i u hget h200

/-- Witness for C6: a one-stylesheet page whose fetch returns 200 produces the
single file `style_0.css` in the css directory. -/
theorem c6_output_filenames_witness :
    (downloadLoop ("out" ++ "/css") (fun i2 _ => cssFilename i2)
        (fun _ => HttpResult.response 200 "x") 0
        (extract_assets_from_page ⟨["http://h/a.css"], [], [], [], []⟩ id).css).filter
        (fun p => p.2 == "http://h/a.css") =
      [("out" ++ "/css" ++ "/" ++ cssFilename 0, "http://h/a.css")] :=
  (c6_output_filenames "out" ⟨["http://h/a.css"], [], [], [], []⟩ id
      (fun _ => HttpResult.response 200 "x")).1 0 "http://h/a.css" (by decide) rfl

/-! ### Scroll-loop lemmas -/

theorem scrollLoop_terminates (heights : Nat → Nat) (step H : Nat)
    (hH : ∀ k, heights k ≤ H) (hstep : 1 ≤ step) :
    ∀ (fuel : Nat) (s : ScrollState), s.height ≤ H → H < s.pos + fuel →
      (scrollLoop heights step (fuel + 1) s).isSome = true := by
  intro fuel
  induction fuel with
  | zero =>
    intro s hsh hpos
    have h : ¬ s.pos < s.height := by omega
    simp [scrollLoop, h]
  | succ f ih =>
    intro s hsh hpos
    rw [scrollLoop]
    by_cases h : s.pos < s.height
    · rw [if_pos h]
      exact ih _ (hH s.k) (show H < s.pos + step + f by omega)
    · rw [if_neg h]
      rfl

theorem scrollLoop_final (heights : Nat → Nat) (step : Nat) :
    ∀ (fuel : Nat) (s t : ScrollState),
      scrollLoop heights step fuel s = some t →
      s.height = heights s.iters → s.k = s.iters + 1 →
      t.height ≤ t.pos ∧ t.height = heights t.iters ∧ t.k = t.iters + 1 := by
  intro fuel
  induction fuel with
  | zero => intro s t h _ _; simp [scrollLoop] at h
  | succ f ih =>
    intro s t h hinv1 hinv2
    rw [scrollLoop] at h
    by_cases hc : s.pos < s.height
    · rw [if_pos hc] at h
      exact ih _ t h (show heights s.k = heights (s.iters + 1) by rw [hinv2])
        (show s.k + 1 = s.iters + 1 + 1 by rw [hinv2])
    · rw [if_neg hc] at h
      injection h with h
      subst h
      exact ⟨by omega, hinv1, hinv2⟩

/-- Claim C8 (confirmed): the scroll loop advances one viewport-height step
per iteration, re-reading the document height as a fresh measurement each
time (never caching it), so it keeps iterating past the original height
whenever the height grows mid-loop; it exits exactly when the position
reaches the last-measured height; under a bound on the heights (the height
eventually stops growing) and a positive scroll step it terminates, with the
final position at or past the final measurement, and the scroll trace ends
with the scroll back to the top. -/
theorem c8_scroll_loop (heights : Nat → Nat) (step H : Nat)
    (hH : ∀ k, heights k ≤ H) (hstep : 1 ≤ step) :
    (∀ (s : ScrollState) (fuel : Nat), s.pos < s.height →
        scrollLoop heights step (fuel + 1) s =
          scrollLoop heights step fuel
            { pos := s.pos + step, height := heights s.k, k := s.k + 1,
              iters := s.iters + 1, trace := s.trace ++ [s.pos] }) ∧
    (∀ (s : ScrollState) (fuel : Nat), ¬ s.pos < s.height →
        scrollLoop heights step (fuel + 1) s = some s) ∧
    ∃ s trace, scroll_page_fully heights step (H + 2) = some (s, trace) ∧
      s.height ≤ s.pos ∧ s.height = heights s.iters ∧ s.k = s.iters + 1 ∧
      trace.getLast? = some 0 := by
  refine ⟨?_, ?_, ?_⟩
  · intro s fuel h
    rw [scrollLoop, if_pos h]
  · intro s fuel h
    rw [scrollLoop, if_neg h]
  · have hterm := scrollLoop_terminates heights step H hH hstep (H + 1)
      { pos := 0, height := heights 0, k := 1, iters := 0, trace := [] } (hH 0) (by omega)
    rcases Option.isSome_iff_exists.mp hterm with ⟨t, ht⟩
    have hfin := scrollLoop_final heights step (H + 2) _ t ht rfl rfl
    refine ⟨t, t.trace ++ [0], ?_, hfin.1, hfin.2.1, hfin.2.2, ?_⟩
    · rw [scroll_page_fully, ht]
    · exact List.getLast?_concat _

/-- Witness for C8 at the spec's lazy-load scenario: the page height grows
from 20 to 40 after the second measurement, with viewport height 10. -/
theorem c8_scroll_loop_witness :
    (∀ k, (fun k => if 2 ≤ k then (40 : Nat) else 20) k ≤ 40) ∧ (1 : Nat) ≤ 10 ∧
      (∃ s trace,
        scroll_page_fully (fun k => if 2 ≤ k then (40 : Nat) else 20) 10 42 = some (s, trace) ∧
        s.height ≤ s.pos ∧ s.height = (fun k => if 2 ≤ k then (40 : Nat) else 20) s.iters ∧
        s.k = s.iters + 1 ∧ trace.getLast? = some 0) :=
  have h1 : ∀ k, (fun k => if 2 ≤ k then (40 : Nat) else 20) k ≤ 40 := fun k => by
    by_cases h : 2 ≤ k <;> simp [h]
  ⟨h1, by omega,
    (c8_scroll_loop (fun k => if 2 ≤ k then (40 : Nat) else 20) 10 40 h1 (by omega)).2.2⟩

/-- Claim C1 counterexample: already in the fully successful run the
discovery event occurs strictly before the lazy-content scroll and before the
media-ready wait — the scroll/media stabilization does not precede discovery;
it runs later, inside the screenshot stage. -/
theorem c1_counterexample :
    (clone true true true true true true true true true).events.indexOf Event.discoverAssets <
        (clone true true true true true true true true true).events.indexOf Event.scrollPage ∧
      (clone true true true true true true true true true).events.indexOf Event.discoverAssets <
        (clone true true true true true true true true true).events.indexOf Event.awaitMedia := by
  decide

/-- Claim C1 (corrected): in every run the page-controller operations are
strictly sequential, but in this order: overlay dismissal completes before
asset discovery, discovery completes before any asset download starts, the
downloads and the HTML snapshot precede the incremental scroll, the scroll
precedes the media-ready wait, and both precede screenshot capture.  The
scroll and media-ready waits thus run *after* discovery (inside the
screenshot stage), not before it. -/
theorem c1_pipeline_order :
    ∀ (a b c d e f g h i : Bool),
      beforeIn (clone a b c d e f g h i).events .dismissOverlays .discoverAssets ∧
        beforeIn (clone a b c d e f g h i).events .discoverAssets .downloadAssets ∧
        beforeIn (clone a b c d e f g h i).events .downloadAssets .saveHtml ∧
        beforeIn (clone a b c d e f g h i).events .saveHtml .scrollPage ∧
        beforeIn (clone a b c d e f g h i).events .scrollPage .awaitMedia ∧
        beforeIn (clone a b c d e f g h i).events .awaitMedia .screenshots ∧
        beforeIn (clone a b c d e f g h i).events .discoverAssets .scrollPage := by
  decide

/-- Witness for C1: in the fully successful run overlay dismissal indeed
precedes discovery. -/
theorem c1_pipeline_order_witness :
    (clone true true true true true true true true true).events.indexOf Event.dismissOverlays <
      (clone true true true true true true true true true).events.indexOf Event.discoverAssets :=
  (c1_pipeline_order true true true true true true true true true).1 (by decide) (by decide)

/-- Claim C2 counterexample: when the DOM evaluation of asset discovery
raises (all other stages healthy), the error is reported but the run does
*not* continue to completion — downloads, the HTML snapshot, screenshots and
the manifest are all skipped. -/
theorem c2_counterexample :
    (clone true true true false true true true true true).events =
        [Event.createDirs, Event.navigate, Event.dismissOverlays, Event.reportError] ∧
      Event.downloadAssets ∉ (clone true true true false true true true true true).events ∧
      Event.saveHtml ∉ (clone true true true false true true true true true).events ∧
      Event.screenshots ∉ (clone true true true false true true true true true).events ∧
      Event.saveMetadata ∉ (clone true true true false true true true true true).events := by
  decide

/-- Claim C2 (corrected): a DOM-evaluation error during asset discovery is
caught only by the orchestrator's outermost handler: it is reported and
`clone` returns normally, but the run aborts — no downloads, HTML snapshot,
screenshots or manifest are produced — rather than leaving the category empty
and continuing. -/
theorem c2_discovery_error_aborts :
    ∀ (e f g h i : Bool),
      (clone true true true false e f g h i).events =
          [Event.createDirs, Event.navigate, Event.dismissOverlays, Event.reportError] ∧
        (clone true true true false e f g h i).raised = false ∧
        Event.reportError ∈ (clone true true true false e f g h i).events ∧
        Event.saveMetadata ∉ (clone true true true false e f g h i).events := by
  decide

/-- Claim C4 counterexample: when navigation fails, the run ends (without
raising) and the browser has not been explicitly closed. -/
theorem c4_counterexample :
    Event.closeBrowser ∉ (clone true true false true true true true true true).events ∧
      (clone true true false true true true true true true).raised = false := by
  decide

/-- Claim C4 (corrected): the explicit `browser.close()` runs only on the
fully successful path — it is the last step of the `try` body, so any failing
stage (navigation included) skips it; on those paths cleanup is left to the
playwright context exit rather than an explicit close. -/
theorem c4_close_only_on_success :
    ∀ (a b c d e f g h i : Bool),
      Event.closeBrowser ∈ (clone a b c d e f g h i).events ↔
        (a && b && c && d && e && f && g && h && i) = true := by
  decide

/-- Claim C9 (confirmed): when navigation fails, the run aborts with the
error reported (with its diagnostic trace); no downstream stage runs, so no
stage that writes files into the directory scaffold executes — in particular
no manifest is written — and no exception escapes `clone`.  (The empty
directory scaffold itself is created upfront, before navigation.) -/
theorem c9_navigation_failure_aborts :
    ∀ (d e f g h i : Bool),
      (clone true true false d e f g h i).events = [Event.createDirs, Event.reportError] ∧
        (clone true true false d e f g h i).raised = false ∧
        Event.reportError ∈ (clone true true false d e f g h i).events ∧
        Event.saveMetadata ∉ (clone true true false d e f g h i).events ∧
        (clone true true false d e f g h i).events.all (fun ev => !writesFiles ev) = true := by
  decide

/-- Claim C10 counterexample: a failure of the upfront directory scaffolding
— which runs before the `try` block — propagates out of `clone` to the
caller. -/
theorem c10_counterexample :
    (clone false true true true true true true true true).raised = true := by
  decide

/-- Claim C10 (corrected): once the directory scaffold has been created,
`clone` returns normally for every failure mode — the outermost catch-all
swallows every exception raised inside the browser block after printing it —
but a failure of the scaffolding step itself, which runs before the `try`,
does propagate an exception to the caller. -/
theorem c10_no_raise_after_setup :
    ∀ (b c d e f g h i : Bool), (clone true b c d e f g h i).raised = false := by
  decide

end WebCloner
